import Mathlib

/-!
Verification of `pkg/github/issue_dependencies.go`: the four issue-dependency
MCP tools (`list_blocked_by`, `list_blocking`, `add_blocked_by`,
`remove_blocked_by`) and their shared request/response pipeline.

The Go code is shallowly embedded. The HTTP transport (`client.Do`,
`client.NewRequest` from the external go-github library) is treated as an
oracle environment `HTTPEnv` recording whether the call failed at the
transport level, the status code and body of the response otherwise, and
whether reading the raw body stream fails. JSON bodies are represented as an
abstract syntax tree `Json` (parsing raw bytes into this tree is the job of
the external JSON decoder); the raw text of the body, as `io.ReadAll` would
return it, is carried separately as `rawBody`.

Go-specific JSON conventions that the code relies on are modelled explicitly:
a missing or null `dependencies` key decodes to a nil slice, and
`json.Marshal` of a nil slice or nil map prints the literal text `null`.
-/

set_option autoImplicit false

namespace IssueDeps

/-- JSON value tree, the output of the external JSON decoder. -/
inductive Json where
  | null
  | bool (b : Bool)
  | num (n : Int)
  | str (s : String)
  | arr (elems : List Json)
  | obj (fields : List (String × Json))

/-- Field lookup in a decoded JSON object. As in Go's `encoding/json`, when a
key occurs several times the last occurrence wins. -/
def jsonLookupLast (fields : List (String × Json)) (name : String) : Option Json :=
  fields.foldl (fun acc kv => if kv.1 = name then some kv.2 else acc) none

/-- `IssueDependency` from the source: one element of a dependencies list. -/
structure IssueDependency where
  Number : Int
  Title : String
  State : String
  HTMLURL : String

/-- `IssueDependenciesResponse` from the source. `Dependencies` is a Go slice;
`none` models the nil slice (which `json.Marshal` prints as `null`) and
`some l` a non-nil slice. -/
structure IssueDependenciesResponse where
  Dependencies : Option (List IssueDependency)

/-- `DependencyRequest` from the source: body of add/remove requests. -/
structure DependencyRequest where
  Owner : String
  Repo : String
  IssueNumber : Int

/-- `PaginationParams` of the surrounding project: Go ints. -/
structure PaginationParams where
  page : Int
  perPage : Int

/-- Decoding one integer field, Go-style: absent field leaves the zero value. -/
def jsonGetInt (fields : List (String × Json)) (name : String) : Int :=
  match jsonLookupLast fields name with
  | some (Json.num n) => n
  | _ => 0

/-- Decoding one string field, Go-style: absent field leaves the zero value. -/
def jsonGetStr (fields : List (String × Json)) (name : String) : String :=
  match jsonLookupLast fields name with
  | some (Json.str s) => s
  | _ => ""

/-- `json.Unmarshal` of one dependency element into `IssueDependency`:
field tags `number`, `title`, `state`, `html_url`; missing fields keep the
zero value. -/
def decodeIssueDependency : Json → IssueDependency
  | Json.obj fields =>
      ⟨jsonGetInt fields "number", jsonGetStr fields "title",
        jsonGetStr fields "state", jsonGetStr fields "html_url"⟩
  | _ => ⟨0, "", "", ""⟩

/-- `json.Unmarshal` of a response body into `var deps
IssueDependenciesResponse` as performed inside `client.Do`. The argument is
the decoded body (`none` = empty body, in which case decoding is skipped and
the zero value remains). A missing or null `dependencies` key leaves the nil
slice. -/
def decodeIssueDependenciesResponse : Option Json → IssueDependenciesResponse
  | some (Json.obj fields) =>
      match jsonLookupLast fields "dependencies" with
      | some (Json.arr elems) => ⟨some (elems.map decodeIssueDependency)⟩
      | _ => ⟨none⟩
  | _ => ⟨none⟩

/-- One hexadecimal digit, lower case, as Go's JSON encoder prints it. -/
def hexDigit (n : Nat) : String :=
  if n = 0 then "0" else if n = 1 then "1" else if n = 2 then "2"
  else if n = 3 then "3" else if n = 4 then "4" else if n = 5 then "5"
  else if n = 6 then "6" else if n = 7 then "7" else if n = 8 then "8"
  else if n = 9 then "9" else if n = 10 then "a" else if n = 11 then "b"
  else if n = 12 then "c" else if n = 13 then "d" else if n = 14 then "e"
  else "f"

/-- Escaping of one character inside a JSON string, following Go's
`encoding/json` encoder (with its default HTML escaping of angle brackets
and ampersands). -/
def goEscapeChar (c : Char) : String :=
  if c = '"' then "\\\""
  else if c = '\\' then "\\\\"
  else if c = '\n' then "\\n"
  else if c = '\r' then "\\r"
  else if c = '\t' then "\\t"
  else if c = '<' then "\\u003c"
  else if c = '>' then "\\u003e"
  else if c = '&' then "\\u0026"
  else if c.toNat < 32 then "\\u00" ++ hexDigit (c.toNat / 16) ++ hexDigit (c.toNat % 16)
  else if c.toNat = 8232 then "\\u2028"
  else if c.toNat = 8233 then "\\u2029"
  else String.singleton c

/-- A Go JSON string literal: quotes around the escaped characters. -/
def goQuote (s : String) : String :=
  "\"" ++ String.join (s.data.map goEscapeChar) ++ "\""

/-- `json.Marshal` of one `IssueDependency`: fields in declaration order with
their JSON tags. -/
def marshalIssueDependency (d : IssueDependency) : String :=
  "\x7b\"number\":" ++ toString d.Number ++
  ",\"title\":" ++ goQuote d.Title ++
  ",\"state\":" ++ goQuote d.State ++
  ",\"html_url\":" ++ goQuote d.HTMLURL ++ "\x7d"

/-- `json.Marshal` of the `Dependencies` slice: `null` for the nil slice,
otherwise a JSON array. -/
def marshalDependencies : Option (List IssueDependency) → String
  | none => "null"
  | some l => "[" ++ String.intercalate "," (l.map marshalIssueDependency) ++ "]"

/-- `json.Marshal` of a `DependencyRequest`: fields in declaration order with
tags `owner`, `repo`, `issue_number`. -/
def marshalDependencyRequest (r : DependencyRequest) : String :=
  "\x7b\"owner\":" ++ goQuote r.Owner ++
  ",\"repo\":" ++ goQuote r.Repo ++
  ",\"issue_number\":" ++ toString r.IssueNumber ++ "\x7d"

mutual

/-- Re-serialization of a decoded `map[string]any` value, as `json.Marshal`
does on the mutation success path. (Go sorts map keys when marshaling; the
decoded object's key order is kept here, which is unobservable to the
properties below.) -/
def marshalGoValue : Json → String
  | Json.null => "null"
  | Json.bool b => if b then "true" else "false"
  | Json.num n => toString n
  | Json.str s => goQuote s
  | Json.arr elems => "[" ++ marshalGoArr elems ++ "]"
  | Json.obj fields => "\x7b" ++ marshalGoObj fields ++ "\x7d"

/-- Comma-separated serialization of array elements. -/
def marshalGoArr : List Json → String
  | [] => ""
  | [x] => marshalGoValue x
  | x :: y :: rest => marshalGoValue x ++ "," ++ marshalGoArr (y :: rest)

/-- Comma-separated serialization of object fields. -/
def marshalGoObj : List (String × Json) → String
  | [] => ""
  | [kv] => goQuote kv.1 ++ ":" ++ marshalGoValue kv.2
  | kv :: kw :: rest => goQuote kv.1 ++ ":" ++ marshalGoValue kv.2 ++ "," ++ marshalGoObj (kw :: rest)

end

/-- `json.Marshal` of the `var result map[string]any` decoded from a mutation
response body: a nil map (empty body, nothing decoded) prints `null`. -/
def marshalGoMap : Option Json → String
  | none => "null"
  | some j => marshalGoValue j

/-- `mcp.CallToolResult`, reduced to the fields the code observes: the error
flag and the text content. -/
structure CallToolResult where
  isError : Bool
  text : String

/-- The HTTP request handed to the transport: method, URL path, optional body. -/
structure HTTPRequest where
  method : String
  url : String
  body : Option String

/-- Oracle for one execution's external interactions.

`newRequestFails` — `client.NewRequest` returns a non-nil error (the
external library rejects the constructed URL, e.g. an owner string with an
invalid percent-escape such as `%zz`); no request object and no response
exist then. `transportFails` — `client.Do` returns a non-nil error
(network/client failure before a response is obtained); in that case no
response exists and the remaining fields are irrelevant. Otherwise the
response has status `statusCode`, its body decodes to `body` (`none` =
empty body), `io.ReadAll` on the body returns `rawBody`, and `readFails`
says whether that read fails. `getClientFails` — the injected `getClient`
callback fails. -/
structure HTTPEnv where
  newRequestFails : Bool
  transportFails : Bool
  getClientFails : Bool
  statusCode : Nat
  body : Option Json
  rawBody : String
  readFails : Bool

/-- Observable outcome of one handler or helper execution: the Go pair
`(*mcp.CallToolResult, error)` as an `Except` (`Except.error` = non-nil hard
error returned to the framework), the method, URL path and body the code
constructed and handed to `client.NewRequest` (if that point was reached),
and how many times the response body was closed. -/
structure Exec where
  result : Except String CallToolResult
  request : Option HTTPRequest
  closes : Nat

/-- `utils.NewToolResultError`: an error-flagged result with the message. -/
def NewToolResultError (msg : String) : CallToolResult := ⟨true, msg⟩

/-- `utils.NewToolResultText`: a success result with the text. -/
def NewToolResultText (msg : String) : CallToolResult := ⟨false, msg⟩

/-- `utils.NewToolResultErrorFromErr`: an error-flagged result built from a
message and an underlying error (the error text appended in reality; only the
fixed message is kept here). -/
def NewToolResultErrorFromErr (msg : String) : CallToolResult := ⟨true, msg⟩

/-- `ghErrors.NewGitHubAPIErrorResponse`: the structured API-error result
produced on transport failure — an error-flagged result carrying the given
message (and not the raw response body). -/
def newGitHubAPIErrorResponse (msg : String) : CallToolResult := ⟨true, msg⟩

/-- `http.StatusOK`. -/
def StatusOK : Nat := 200

/-- `http.StatusCreated`. -/
def StatusCreated : Nat := 201

/-- `http.StatusNoContent`. -/
def StatusNoContent : Nat := 204

/-- The accepted status set of the list operations, from the guard
`resp.StatusCode != http.StatusOK`. -/
def listAccepts (status : Nat) : Bool := status == StatusOK

/-- The accepted status set of `add_blocked_by`, from the guard
`resp.StatusCode != http.StatusOK && resp.StatusCode != http.StatusCreated`. -/
def addAccepts (status : Nat) : Bool := status == StatusOK || status == StatusCreated

/-- The accepted status set of `remove_blocked_by`, from the guard
`resp.StatusCode != http.StatusOK && resp.StatusCode != http.StatusNoContent`. -/
def removeAccepts (status : Nat) : Bool := status == StatusOK || status == StatusNoContent

/-- `listIssueDependencies` from the source: builds the GET URL (appending
pagination when requested), creates the request (a `client.NewRequest`
failure is returned as a hard error), performs it, and translates the
response. -/
def listIssueDependencies (owner repo : String) (issueNumber : Int)
    (dependencyType : String) (pagination : PaginationParams) (env : HTTPEnv) : Exec :=
  let url := "repos/" ++ owner ++ "/" ++ repo ++ "/issues/" ++ toString issueNumber ++
    "/dependencies/" ++ dependencyType
  let url := if 0 < pagination.page ∨ 0 < pagination.perPage then
      url ++ "?page=" ++ toString pagination.page ++ "&per_page=" ++ toString pagination.perPage
    else url
  let req : HTTPRequest := ⟨"GET", url, none⟩
  if env.newRequestFails then
    ⟨Except.error "failed to create request", some req, 0⟩
  else if env.transportFails then
    ⟨Except.ok (newGitHubAPIErrorResponse ("failed to list " ++ dependencyType ++ " dependencies")),
      some req, 0⟩
  else
    let deps := decodeIssueDependenciesResponse env.body
    if env.statusCode ≠ StatusOK then
      if env.readFails then
        ⟨Except.error "failed to read response body", some req, 1⟩
      else
        ⟨Except.ok (NewToolResultError ("failed to list dependencies: " ++ env.rawBody)),
          some req, 1⟩
    else
      ⟨Except.ok (NewToolResultText (marshalDependencies deps.Dependencies)), some req, 1⟩

/-- `addIssueDependency` from the source: POST with a `DependencyRequest`
body (a `client.NewRequest` failure is returned as a hard error), accepting
200 and 201. -/
def addIssueDependency (owner repo : String) (issueNumber : Int)
    (blockedByOwner blockedByRepo : String) (blockedByIssueNumber : Int) (env : HTTPEnv) : Exec :=
  let url := "repos/" ++ owner ++ "/" ++ repo ++ "/issues/" ++ toString issueNumber ++
    "/dependencies/blocked_by"
  let reqBody : DependencyRequest := ⟨blockedByOwner, blockedByRepo, blockedByIssueNumber⟩
  let req : HTTPRequest := ⟨"POST", url, some (marshalDependencyRequest reqBody)⟩
  if env.newRequestFails then
    ⟨Except.error "failed to create request", some req, 0⟩
  else if env.transportFails then
    ⟨Except.ok (newGitHubAPIErrorResponse "failed to add blocked_by dependency"), some req, 0⟩
  else
    if env.statusCode ≠ StatusOK ∧ env.statusCode ≠ StatusCreated then
      if env.readFails then
        ⟨Except.error "failed to read response body", some req, 1⟩
      else
        ⟨Except.ok (NewToolResultError ("failed to add dependency: " ++ env.rawBody)),
          some req, 1⟩
    else
      ⟨Except.ok (NewToolResultText (marshalGoMap env.body)), some req, 1⟩

/-- `removeIssueDependency` from the source: DELETE with a
`DependencyRequest` body (a `client.NewRequest` failure is returned as a
hard error), accepting 200 and 204. -/
def removeIssueDependency (owner repo : String) (issueNumber : Int)
    (blockedByOwner blockedByRepo : String) (blockedByIssueNumber : Int) (env : HTTPEnv) : Exec :=
  let url := "repos/" ++ owner ++ "/" ++ repo ++ "/issues/" ++ toString issueNumber ++
    "/dependencies/blocked_by"
  let reqBody : DependencyRequest := ⟨blockedByOwner, blockedByRepo, blockedByIssueNumber⟩
  let req : HTTPRequest := ⟨"DELETE", url, some (marshalDependencyRequest reqBody)⟩
  if env.newRequestFails then
    ⟨Except.error "failed to create request", some req, 0⟩
  else if env.transportFails then
    ⟨Except.ok (newGitHubAPIErrorResponse "failed to remove blocked_by dependency"), some req, 0⟩
  else
    if env.statusCode ≠ StatusOK ∧ env.statusCode ≠ StatusNoContent then
      if env.readFails then
        ⟨Except.error "failed to read response body", some req, 1⟩
      else
        ⟨Except.ok (NewToolResultError ("failed to remove dependency: " ++ env.rawBody)),
          some req, 1⟩
    else
      ⟨Except.ok (NewToolResultText (marshalGoMap env.body)), some req, 1⟩

/-- A value in the untyped tool-call argument map. -/
inductive Value where
  | str (s : String)
  | num (n : Int)
  | other

/-- The untyped key-to-value argument map of one tool call. -/
def Args : Type := List (String × Value)

/-- First-match lookup in the argument map. -/
def lookupArg : List (String × Value) → String → Option Value
  | [], _ => none
  | (k, v) :: rest, name => if k = name then some v else lookupArg rest name

/-- Modelled from the spec: `RequiredParam[string]` (defined in the
surrounding project, not in this repository's sources) — "returns the typed
value or fails with MissingParameterError (name embedded in message) when
absent, or TypeMismatchError when present but not coercible"; the message
format `missing required parameter: NAME` is fixed by this repository's
tests. -/
def RequiredParamString (args : List (String × Value)) (name : String) : Except String String :=
  match lookupArg args name with
  | none => Except.error ("missing required parameter: " ++ name)
  | some (Value.str s) => Except.ok s
  | some _ => Except.error ("parameter " ++ name ++ " is not of the expected type")

/-- Modelled from the spec: `RequiredInt` (defined in the surrounding
project, not in this repository's sources) — required integer extraction,
accepting any numeric representation (already truncated to a whole number
here), with the same missing-parameter message format. -/
def RequiredInt (args : List (String × Value)) (name : String) : Except String Int :=
  match lookupArg args name with
  | none => Except.error ("missing required parameter: " ++ name)
  | some (Value.num n) => Except.ok n
  | some _ => Except.error ("parameter " ++ name ++ " is not of the expected type")

/-- Modelled from the spec: `OptionalParam[string]` (defined in the
surrounding project, not in this repository's sources) — "Optional
parameters return a zero-value and no error when absent". -/
def OptionalParamString (args : List (String × Value)) (name : String) : Except String String :=
  match lookupArg args name with
  | none => Except.ok ""
  | some (Value.str s) => Except.ok s
  | some _ => Except.error ("parameter " ++ name ++ " is not of the expected type")

/-- Modelled from the spec: optional integer extraction used by the
pagination parser — zero value when absent. -/
def OptionalIntParam (args : List (String × Value)) (name : String) : Except String Int :=
  match lookupArg args name with
  | none => Except.ok 0
  | some (Value.num n) => Except.ok n
  | some _ => Except.error ("parameter " ++ name ++ " is not of the expected type")

/-- Modelled from the spec: `OptionalPaginationParams` (defined in the
surrounding project, not in this repository's sources) — optional `page` and
`per_page`, each an integer ≥ 0 defaulting to zero when absent. -/
def OptionalPaginationParams (args : List (String × Value)) : Except String PaginationParams :=
  match OptionalIntParam args "page" with
  | Except.error e => Except.error e
  | Except.ok page =>
    match OptionalIntParam args "per_page" with
    | Except.error e => Except.error e
    | Except.ok perPage => Except.ok ⟨page, perPage⟩

/-- The handler closure returned by `ListBlockedBy`: validation, client
acquisition, then `listIssueDependencies` with kind `blocked_by`. -/
def ListBlockedByHandler (args : List (String × Value)) (env : HTTPEnv) : Exec :=
  match RequiredParamString args "owner" with
  | Except.error e => ⟨Except.ok (NewToolResultError e), none, 0⟩
  | Except.ok owner =>
  match RequiredParamString args "repo" with
  | Except.error e => ⟨Except.ok (NewToolResultError e), none, 0⟩
  | Except.ok repo =>
  match RequiredInt args "issue_number" with
  | Except.error e => ⟨Except.ok (NewToolResultError e), none, 0⟩
  | Except.ok issueNumber =>
  match OptionalPaginationParams args with
  | Except.error e => ⟨Except.ok (NewToolResultError e), none, 0⟩
  | Except.ok pagination =>
  if env.getClientFails then
    ⟨Except.ok (NewToolResultErrorFromErr "failed to get GitHub client"), none, 0⟩
  else
    listIssueDependencies owner repo issueNumber "blocked_by" pagination env

/-- The handler closure returned by `ListBlocking`: validation, client
acquisition, then `listIssueDependencies` with kind `blocking`. -/
def ListBlockingHandler (args : List (String × Value)) (env : HTTPEnv) : Exec :=
  match RequiredParamString args "owner" with
  | Except.error e => ⟨Except.ok (NewToolResultError e), none, 0⟩
  | Except.ok owner =>
  match RequiredParamString args "repo" with
  | Except.error e => ⟨Except.ok (NewToolResultError e), none, 0⟩
  | Except.ok repo =>
  match RequiredInt args "issue_number" with
  | Except.error e => ⟨Except.ok (NewToolResultError e), none, 0⟩
  | Except.ok issueNumber =>
  match OptionalPaginationParams args with
  | Except.error e => ⟨Except.ok (NewToolResultError e), none, 0⟩
  | Except.ok pagination =>
  if env.getClientFails then
    ⟨Except.ok (NewToolResultErrorFromErr "failed to get GitHub client"), none, 0⟩
  else
    listIssueDependencies owner repo issueNumber "blocking" pagination env

/-- The handler closure returned by `AddBlockedBy`: required-parameter
validation, then optional cross-repo parameters defaulting to the primary
`owner`/`repo` when empty, then `addIssueDependency`. -/
def AddBlockedByHandler (args : List (String × Value)) (env : HTTPEnv) : Exec :=
  match RequiredParamString args "owner" with
  | Except.error e => ⟨Except.ok (NewToolResultError e), none, 0⟩
  | Except.ok owner =>
  match RequiredParamString args "repo" with
  | Except.error e => ⟨Except.ok (NewToolResultError e), none, 0⟩
  | Except.ok repo =>
  match RequiredInt args "issue_number" with
  | Except.error e => ⟨Except.ok (NewToolResultError e), none, 0⟩
  | Except.ok issueNumber =>
  match RequiredInt args "blocked_by_issue_number" with
  | Except.error e => ⟨Except.ok (NewToolResultError e), none, 0⟩
  | Except.ok blockedByIssueNumber =>
  match OptionalParamString args "blocked_by_owner" with
  | Except.error e => ⟨Except.ok (NewToolResultError e), none, 0⟩
  | Except.ok blockedByOwnerRaw =>
  let blockedByOwner := if blockedByOwnerRaw = "" then owner else blockedByOwnerRaw
  match OptionalParamString args "blocked_by_repo" with
  | Except.error e => ⟨Except.ok (NewToolResultError e), none, 0⟩
  | Except.ok blockedByRepoRaw =>
  let blockedByRepo := if blockedByRepoRaw = "" then repo else blockedByRepoRaw
  if env.getClientFails then
    ⟨Except.ok (NewToolResultErrorFromErr "failed to get GitHub client"), none, 0⟩
  else
    addIssueDependency owner repo issueNumber blockedByOwner blockedByRepo blockedByIssueNumber env

/-- The handler closure returned by `RemoveBlockedBy`: same validation and
defaulting as `AddBlockedByHandler`, then `removeIssueDependency`. -/
def RemoveBlockedByHandler (args : List (String × Value)) (env : HTTPEnv) : Exec :=
  match RequiredParamString args "owner" with
  | Except.error e => ⟨Except.ok (NewToolResultError e), none, 0⟩
  | Except.ok owner =>
  match RequiredParamString args "repo" with
  | Except.error e => ⟨Except.ok (NewToolResultError e), none, 0⟩
  | Except.ok repo =>
  match RequiredInt args "issue_number" with
  | Except.error e => ⟨Except.ok (NewToolResultError e), none, 0⟩
  | Except.ok issueNumber =>
  match RequiredInt args "blocked_by_issue_number" with
  | Except.error e => ⟨Except.ok (NewToolResultError e), none, 0⟩
  | Except.ok blockedByIssueNumber =>
  match OptionalParamString args "blocked_by_owner" with
  | Except.error e => ⟨Except.ok (NewToolResultError e), none, 0⟩
  | Except.ok blockedByOwnerRaw =>
  let blockedByOwner := if blockedByOwnerRaw = "" then owner else blockedByOwnerRaw
  match OptionalParamString args "blocked_by_repo" with
  | Except.error e => ⟨Except.ok (NewToolResultError e), none, 0⟩
  | Except.ok blockedByRepoRaw =>
  let blockedByRepo := if blockedByRepoRaw = "" then repo else blockedByRepoRaw
  if env.getClientFails then
    ⟨Except.ok (NewToolResultErrorFromErr "failed to get GitHub client"), none, 0⟩
  else
    removeIssueDependency owner repo issueNumber blockedByOwner blockedByRepo blockedByIssueNumber env

/-- An execution is treated as success when the returned result is present
and not error-flagged. -/
def isSuccess (e : Exec) : Bool :=
  match e.result with
  | Except.ok r => !r.isError
  | Except.error _ => false

/-- An execution surfaces a hard failure when the returned Go error is
non-nil. -/
def isHardError (e : Exec) : Bool :=
  match e.result with
  | Except.ok _ => false
  | Except.error _ => true

/-! ### Concrete environments used by the theorems below -/

/-- A plain successful exchange: status 200, empty body. -/
def env0 : HTTPEnv := ⟨false, false, false, 200, none, "", false⟩

/-- A 204 No Content exchange (empty body, nothing decoded). -/
def env204 : HTTPEnv := ⟨false, false, false, 204, none, "", false⟩

/-- A 500 exchange whose body reads back as `boom`. -/
def env500 : HTTPEnv := ⟨false, false, false, 500, none, "boom", false⟩

/-- A 500 exchange where reading the response body fails. -/
def envRead500 : HTTPEnv := ⟨false, false, false, 500, none, "remote failure body", true⟩

/-- The body of the specified golden exchange: one dependency record. -/
def goldenBody : Json :=
  Json.obj [("dependencies", Json.arr [Json.obj
    [("number", Json.num 10), ("title", Json.str "Blocking Issue"),
     ("state", Json.str "open"), ("html_url", Json.str "https://github.com/owner/repo/issues/10")]])]

/-- The golden exchange: status 200 with `goldenBody`. -/
def goldenEnv : HTTPEnv := ⟨false, false, false, 200, some goldenBody, "", false⟩

/-- A 200 exchange whose JSON object body lacks the `dependencies` key. -/
def envNoDeps : HTTPEnv :=
  ⟨false, false, false, 200, some (Json.obj [("foo", Json.num 1)]), "", false⟩

/-! ### Claim theorems -/

/-- C1: for every operation and every HTTP response obtained without a
transport error (so the request object was created and `client.Do` did not
fail), the response is treated as success exactly when its status code is in
the operation's accepted set — 200 for the list operations, 200 or 201 for
add, 200 or 204 for remove (the latter covering the no-body case, which is
not a decode failure). -/
theorem accepted_status_iff_success (o r : String) (n : Int) (bo br : String) (bn : Int)
    (pg : PaginationParams) (env : HTTPEnv) (hnr : env.newRequestFails = false)
    (htr : env.transportFails = false) :
    (isSuccess (listIssueDependencies o r n "blocked_by" pg env) = true ↔ env.statusCode = 200) ∧
    (isSuccess (listIssueDependencies o r n "blocking" pg env) = true ↔ env.statusCode = 200) ∧
    (isSuccess (addIssueDependency o r n bo br bn env) = true ↔
      (env.statusCode = 200 ∨ env.statusCode = 201)) ∧
    (isSuccess (removeIssueDependency o r n bo br bn env) = true ↔
      (env.statusCode = 200 ∨ env.statusCode = 204)) := by
  refine ⟨?_, ?_, ?_, ?_⟩
  · unfold listIssueDependencies
    by_cases hs : env.statusCode = 200 <;> by_cases hr : env.readFails <;>
      simp [hnr, htr, hs, hr, isSuccess, StatusOK, NewToolResultError, NewToolResultText,
        newGitHubAPIErrorResponse]
  · unfold listIssueDependencies
    by_cases hs : env.statusCode = 200 <;> by_cases hr : env.readFails <;>
      simp [hnr, htr, hs, hr, isSuccess, StatusOK, NewToolResultError, NewToolResultText,
        newGitHubAPIErrorResponse]
  · unfold addIssueDependency
    by_cases hs : env.statusCode = 200 <;> by_cases hs2 : env.statusCode = 201 <;>
      by_cases hr : env.readFails <;>
      simp [hnr, htr, hs, hs2, hr, isSuccess, StatusOK, StatusCreated, NewToolResultError,
        NewToolResultText, newGitHubAPIErrorResponse]
  · unfold removeIssueDependency
    by_cases hs : env.statusCode = 200 <;> by_cases hs2 : env.statusCode = 204 <;>
      by_cases hr : env.readFails <;>
      simp [hnr, htr, hs, hs2, hr, isSuccess, StatusOK, StatusNoContent, NewToolResultError,
        NewToolResultText, newGitHubAPIErrorResponse]

/-- C1 witness: a 204 response to `remove_blocked_by` is treated as success. -/
theorem accepted_status_iff_success_witness :
    env204.newRequestFails = false ∧ env204.transportFails = false ∧
    (isSuccess (removeIssueDependency "owner" "repo" 42 "owner" "repo" 10 env204) = true ↔
      (env204.statusCode = 200 ∨ env204.statusCode = 204)) :=
  ⟨rfl, rfl,
    (accepted_status_iff_success "owner" "repo" 42 "owner" "repo" 10 ⟨0, 0⟩ env204 rfl rfl).2.2.2⟩

/-- C6: the golden exchange — a GET to
`repos/owner/repo/issues/42/dependencies/blocked_by` answered with status 200
and one dependency record (number 10, title `Blocking Issue`, state `open`)
— makes `list_blocked_by` return a success result whose text is the JSON
array with exactly that one element. -/
theorem list_blocked_by_golden :
    (ListBlockedByHandler [("owner", Value.str "owner"), ("repo", Value.str "repo"),
        ("issue_number", Value.num 42)] goldenEnv).result =
      Except.ok ⟨false,
        "[\x7b\"number\":10,\"title\":\"Blocking Issue\",\"state\":\"open\",\"html_url\":\"https://github.com/owner/repo/issues/10\"\x7d]"⟩ ∧
    (ListBlockedByHandler [("owner", Value.str "owner"), ("repo", Value.str "repo"),
        ("issue_number", Value.num 42)] goldenEnv).request =
      some ⟨"GET", "repos/owner/repo/issues/42/dependencies/blocked_by", none⟩ :=
  ⟨rfl, rfl⟩

/-- C8: whenever an HTTP response object is obtained (the request object was
created and `client.Do` did not fail), the response body is closed exactly
once, on every exit path — accepted status, non-accepted status with the
body read succeeding, and non-accepted status with the body read failing.
(On `NewRequest` or transport failure no response object exists; local
marshaling on these paths cannot fail.) -/
theorem body_closed_once (o r : String) (n : Int) (kind : String) (bo br : String) (bn : Int)
    (pg : PaginationParams) (env : HTTPEnv) (hnr : env.newRequestFails = false)
    (hresp : env.transportFails = false) :
    (listIssueDependencies o r n kind pg env).closes = 1 ∧
    (addIssueDependency o r n bo br bn env).closes = 1 ∧
    (removeIssueDependency o r n bo br bn env).closes = 1 := by
  refine ⟨?_, ?_, ?_⟩
  · unfold listIssueDependencies
    simp [hnr, hresp]
    repeat' split <;> try rfl
  · unfold addIssueDependency
    simp [hnr, hresp]
    repeat' split <;> try rfl
  · unfold removeIssueDependency
    simp [hnr, hresp]
    repeat' split <;> try rfl

/-- C8 witness: on a plain successful exchange the body is closed once. -/
theorem body_closed_once_witness :
    env0.newRequestFails = false ∧ env0.transportFails = false ∧
    (listIssueDependencies "owner" "repo" 42 "blocked_by" ⟨0, 0⟩ env0).closes = 1 :=
  ⟨rfl, rfl,
    (body_closed_once "owner" "repo" 42 "blocked_by" "owner" "repo" 10 ⟨0, 0⟩ env0 rfl rfl).1⟩

/-- C9: for every validated input, `remove_blocked_by` builds exactly the
same request path and exactly the same JSON body as `add_blocked_by`,
differing only in the HTTP method (DELETE instead of POST). -/
theorem add_remove_same_request (o r : String) (n : Int) (bo br : String) (bn : Int)
    (env : HTTPEnv) :
    ∃ u b,
      (addIssueDependency o r n bo br bn env).request = some ⟨"POST", u, some b⟩ ∧
      (removeIssueDependency o r n bo br bn env).request = some ⟨"DELETE", u, some b⟩ ∧
      u = "repos/" ++ o ++ "/" ++ r ++ "/issues/" ++ toString n ++ "/dependencies/blocked_by" ∧
      b = marshalDependencyRequest ⟨bo, br, bn⟩ := by
  refine ⟨"repos/" ++ o ++ "/" ++ r ++ "/issues/" ++ toString n ++ "/dependencies/blocked_by",
    marshalDependencyRequest ⟨bo, br, bn⟩, ?_, ?_, rfl, rfl⟩
  · unfold addIssueDependency
    repeat' split <;> try rfl
  · unfold removeIssueDependency
    repeat' split <;> try rfl

/-- The GET request built by `listIssueDependencies`: the base path with the
pagination query appended exactly when `page > 0` or `perPage > 0`. -/
theorem list_request_eq (o r : String) (n : Int) (kind : String) (pg : PaginationParams)
    (env : HTTPEnv) :
    (listIssueDependencies o r n kind pg env).request =
      some ⟨"GET",
        if 0 < pg.page ∨ 0 < pg.perPage then
          "repos/" ++ o ++ "/" ++ r ++ "/issues/" ++ toString n ++ "/dependencies/" ++ kind ++
            "?page=" ++ toString pg.page ++ "&per_page=" ++ toString pg.perPage
        else "repos/" ++ o ++ "/" ++ r ++ "/issues/" ++ toString n ++ "/dependencies/" ++ kind,
        none⟩ := by
  unfold listIssueDependencies
  by_cases hp : 0 < pg.page ∨ 0 < pg.perPage <;> simp [hp] <;> repeat' split <;> try rfl

/-- C5: the pagination query string `?page=...&per_page=...` is appended to
the list request URL if and only if `page > 0` or `perPage > 0`; when both
are zero the URL is exactly
`repos/OWNER/REPO/issues/N/dependencies/KIND` with nothing appended. -/
theorem pagination_query_iff (o r : String) (n : Int) (kind : String) (pg : PaginationParams)
    (env : HTTPEnv) :
    ((0 < pg.page ∨ 0 < pg.perPage) →
      (listIssueDependencies o r n kind pg env).request =
        some ⟨"GET",
          "repos/" ++ o ++ "/" ++ r ++ "/issues/" ++ toString n ++ "/dependencies/" ++ kind ++
            "?page=" ++ toString pg.page ++ "&per_page=" ++ toString pg.perPage, none⟩) ∧
    ((pg.page = 0 ∧ pg.perPage = 0) →
      (listIssueDependencies o r n kind pg env).request =
        some ⟨"GET", "repos/" ++ o ++ "/" ++ r ++ "/issues/" ++ toString n ++ "/dependencies/" ++ kind,
          none⟩) ∧
    ((listIssueDependencies o r n kind pg env).request =
        some ⟨"GET", "repos/" ++ o ++ "/" ++ r ++ "/issues/" ++ toString n ++ "/dependencies/" ++ kind,
          none⟩ ↔ ¬(0 < pg.page ∨ 0 < pg.perPage)) := by
  refine ⟨?_, ?_, ?_, ?_⟩
  · intro h
    rw [list_request_eq, if_pos h]
  · rintro ⟨h1, h2⟩
    rw [list_request_eq, if_neg (by simp [h1, h2])]
  · rw [list_request_eq]
    intro heq hc
    rw [if_pos hc] at heq
    simp only [Option.some.injEq, HTTPRequest.mk.injEq] at heq
    have hlen := congrArg String.length heq.2.1
    simp only [String.length_append] at hlen
    have h6 : ("?page=" : String).length = 6 := rfl
    omega
  · intro hn
    rw [list_request_eq, if_neg hn]

/-- C5 witness: with page 2 and per-page 30 the query is appended. -/
theorem pagination_query_iff_witness :
    ((0 : Int) < 2 ∨ (0 : Int) < 30) ∧
    (listIssueDependencies "owner" "repo" 42 "blocked_by" ⟨2, 30⟩ env0).request =
      some ⟨"GET", "repos/owner/repo/issues/42/dependencies/blocked_by?page=2&per_page=30", none⟩ :=
  ⟨Or.inl (by decide),
    (pagination_query_iff "owner" "repo" 42 "blocked_by" ⟨2, 30⟩ env0).1 (Or.inl (by decide))⟩

/-- C2 counterexample: a 500 response (outside every accepted set) where
reading the response body fails makes `listIssueDependencies` return a hard
error, not an error-flagged result carrying the raw body. -/
theorem unexpected_status_raw_body_cex :
    envRead500.transportFails = false ∧ envRead500.statusCode ≠ 200 ∧
    (listIssueDependencies "owner" "repo" 42 "blocked_by" ⟨0, 0⟩ envRead500).result =
      Except.error "failed to read response body" :=
  ⟨rfl, by decide, rfl⟩

/-- C2 amended: whenever the response status lies outside the operation's
accepted set and reading the response body succeeds, the operation returns
an error-flagged result whose message contains the raw response body text
verbatim (if the body read fails, a hard error is returned instead). -/
theorem unexpected_status_raw_body (o r : String) (n : Int) (bo br : String) (bn : Int)
    (pg : PaginationParams) (env : HTTPEnv) (hnr : env.newRequestFails = false)
    (htr : env.transportFails = false) (hread : env.readFails = false) :
    (env.statusCode ≠ 200 →
      (listIssueDependencies o r n "blocked_by" pg env).result =
        Except.ok ⟨true, "failed to list dependencies: " ++ env.rawBody⟩) ∧
    (env.statusCode ≠ 200 →
      (listIssueDependencies o r n "blocking" pg env).result =
        Except.ok ⟨true, "failed to list dependencies: " ++ env.rawBody⟩) ∧
    (env.statusCode ≠ 200 → env.statusCode ≠ 201 →
      (addIssueDependency o r n bo br bn env).result =
        Except.ok ⟨true, "failed to add dependency: " ++ env.rawBody⟩) ∧
    (env.statusCode ≠ 200 → env.statusCode ≠ 204 →
      (removeIssueDependency o r n bo br bn env).result =
        Except.ok ⟨true, "failed to remove dependency: " ++ env.rawBody⟩) := by
  refine ⟨?_, ?_, ?_, ?_⟩
  · intro h
    unfold listIssueDependencies
    simp [hnr, htr, hread, h, StatusOK, NewToolResultError]
  · intro h
    unfold listIssueDependencies
    simp [hnr, htr, hread, h, StatusOK, NewToolResultError]
  · intro h1 h2
    unfold addIssueDependency
    simp [hnr, htr, hread, h1, h2, StatusOK, StatusCreated, NewToolResultError]
  · intro h1 h2
    unfold removeIssueDependency
    simp [hnr, htr, hread, h1, h2, StatusOK, StatusNoContent, NewToolResultError]

/-- C2 amended witness: a 500 response with body `boom` yields the
error-flagged result quoting `boom`. -/
theorem unexpected_status_raw_body_witness :
    env500.newRequestFails = false ∧ env500.transportFails = false ∧ env500.readFails = false ∧
    env500.statusCode ≠ 200 ∧
    (listIssueDependencies "owner" "repo" 42 "blocked_by" ⟨0, 0⟩ env500).result =
      Except.ok ⟨true, "failed to list dependencies: boom"⟩ :=
  ⟨rfl, rfl, rfl, by decide,
    (unexpected_status_raw_body "owner" "repo" 42 "owner" "repo" 10 ⟨0, 0⟩ env500 rfl rfl rfl).1
      (by decide)⟩

/-- C4: for each of the four operations and each of its required parameters
(`owner`, `repo`, `issue_number`, and for the mutations
`blocked_by_issue_number`), an input map omitting that parameter yields an
error-flagged validation result whose message contains the exact missing
field name, and never a hard failure. -/
theorem missing_required_param_message (o r : String) (n bn : Int) (env : HTTPEnv) :
    (ListBlockedByHandler [("repo", Value.str r), ("issue_number", Value.num n)] env).result =
      Except.ok ⟨true, "missing required parameter: owner"⟩ ∧
    (ListBlockedByHandler [("owner", Value.str o), ("issue_number", Value.num n)] env).result =
      Except.ok ⟨true, "missing required parameter: repo"⟩ ∧
    (ListBlockedByHandler [("owner", Value.str o), ("repo", Value.str r)] env).result =
      Except.ok ⟨true, "missing required parameter: issue_number"⟩ ∧
    (ListBlockingHandler [("repo", Value.str r), ("issue_number", Value.num n)] env).result =
      Except.ok ⟨true, "missing required parameter: owner"⟩ ∧
    (ListBlockingHandler [("owner", Value.str o), ("issue_number", Value.num n)] env).result =
      Except.ok ⟨true, "missing required parameter: repo"⟩ ∧
    (ListBlockingHandler [("owner", Value.str o), ("repo", Value.str r)] env).result =
      Except.ok ⟨true, "missing required parameter: issue_number"⟩ ∧
    (AddBlockedByHandler [("repo", Value.str r), ("issue_number", Value.num n),
        ("blocked_by_issue_number", Value.num bn)] env).result =
      Except.ok ⟨true, "missing required parameter: owner"⟩ ∧
    (AddBlockedByHandler [("owner", Value.str o), ("issue_number", Value.num n),
        ("blocked_by_issue_number", Value.num bn)] env).result =
      Except.ok ⟨true, "missing required parameter: repo"⟩ ∧
    (AddBlockedByHandler [("owner", Value.str o), ("repo", Value.str r),
        ("blocked_by_issue_number", Value.num bn)] env).result =
      Except.ok ⟨true, "missing required parameter: issue_number"⟩ ∧
    (AddBlockedByHandler [("owner", Value.str o), ("repo", Value.str r),
        ("issue_number", Value.num n)] env).result =
      Except.ok ⟨true, "missing required parameter: blocked_by_issue_number"⟩ ∧
    (RemoveBlockedByHandler [("repo", Value.str r), ("issue_number", Value.num n),
        ("blocked_by_issue_number", Value.num bn)] env).result =
      Except.ok ⟨true, "missing required parameter: owner"⟩ ∧
    (RemoveBlockedByHandler [("owner", Value.str o), ("issue_number", Value.num n),
        ("blocked_by_issue_number", Value.num bn)] env).result =
      Except.ok ⟨true, "missing required parameter: repo"⟩ ∧
    (RemoveBlockedByHandler [("owner", Value.str o), ("repo", Value.str r),
        ("blocked_by_issue_number", Value.num bn)] env).result =
      Except.ok ⟨true, "missing required parameter: issue_number"⟩ ∧
    (RemoveBlockedByHandler [("owner", Value.str o), ("repo", Value.str r),
        ("issue_number", Value.num n)] env).result =
      Except.ok ⟨true, "missing required parameter: blocked_by_issue_number"⟩ :=
  ⟨rfl, rfl, rfl, rfl, rfl, rfl, rfl, rfl, rfl, rfl, rfl, rfl, rfl, rfl⟩

/-- C7 counterexample: at a non-accepted status whose body read fails, the
code returns a non-nil hard error although the failure is a remote
body-read problem, not a local JSON encode/decode fault. -/
theorem hard_error_only_serialization_cex :
    envRead500.transportFails = false ∧ envRead500.readFails = true ∧
    (addIssueDependency "owner" "repo" 42 "owner" "repo" 10 envRead500).result =
      Except.error "failed to read response body" :=
  ⟨rfl, rfl, rfl⟩

/-- C7 amended: caller-input errors, transport failures, and unexpected
statuses whose body read succeeds are all recovered into error-flagged
results with a nil hard error; a non-nil hard error arises exactly when the
request object cannot be created (`client.NewRequest` fails on the
constructed URL — a local request-construction fault) or when a
non-accepted status is answered and reading the response body fails. -/
theorem hard_error_exactly_body_read_failure (o r : String) (n bn : Int) (kind : String)
    (bo br : String) (pg : PaginationParams) (env : HTTPEnv) :
    (isHardError (listIssueDependencies o r n kind pg env) =
      (env.newRequestFails ||
        (!env.transportFails && !listAccepts env.statusCode && env.readFails))) ∧
    (isHardError (addIssueDependency o r n bo br bn env) =
      (env.newRequestFails ||
        (!env.transportFails && !addAccepts env.statusCode && env.readFails))) ∧
    (isHardError (removeIssueDependency o r n bo br bn env) =
      (env.newRequestFails ||
        (!env.transportFails && !removeAccepts env.statusCode && env.readFails))) ∧
    (isHardError (ListBlockedByHandler [("repo", Value.str r), ("issue_number", Value.num n)]
      env) = false) ∧
    (isHardError (AddBlockedByHandler [("owner", Value.str o), ("repo", Value.str r),
      ("issue_number", Value.num n)] env) = false) := by
  refine ⟨?_, ?_, ?_, rfl, rfl⟩
  · unfold listIssueDependencies
    rcases env with ⟨nf, tf, gc, sc, body, raw, rf⟩
    cases nf <;> cases tf <;> cases rf <;> by_cases hs : sc = 200 <;>
      simp [hs, isHardError, listAccepts, StatusOK, NewToolResultError, NewToolResultText,
        newGitHubAPIErrorResponse]
  · unfold addIssueDependency
    rcases env with ⟨nf, tf, gc, sc, body, raw, rf⟩
    cases nf <;> cases tf <;> cases rf <;> by_cases hs : sc = 200 <;> by_cases hs2 : sc = 201 <;>
      simp [hs, hs2, isHardError, addAccepts, StatusOK, StatusCreated, NewToolResultError,
        NewToolResultText, newGitHubAPIErrorResponse]
  · unfold removeIssueDependency
    rcases env with ⟨nf, tf, gc, sc, body, raw, rf⟩
    cases nf <;> cases tf <;> cases rf <;> by_cases hs : sc = 200 <;> by_cases hs2 : sc = 204 <;>
      simp [hs, hs2, isHardError, removeAccepts, StatusOK, StatusNoContent, NewToolResultError,
        NewToolResultText, newGitHubAPIErrorResponse]

/-- C10: a 200 response to a list operation whose JSON object body lacks the
`dependencies` key (or has it null) decodes to the nil slice, and the
operation returns a success result whose text is the literal `null`. -/
theorem missing_dependencies_null (o r : String) (n : Int) (kind : String) (pg : PaginationParams)
    (env : HTTPEnv) (fs : List (String × Json)) (hnr : env.newRequestFails = false)
    (htr : env.transportFails = false)
    (hsc : env.statusCode = 200) (hbody : env.body = some (Json.obj fs))
    (hdeps : jsonLookupLast fs "dependencies" = none ∨
      jsonLookupLast fs "dependencies" = some Json.null) :
    (listIssueDependencies o r n kind pg env).result = Except.ok ⟨false, "null"⟩ := by
  unfold listIssueDependencies
  rcases hdeps with h | h <;>
    simp [hnr, htr, hsc, hbody, decodeIssueDependenciesResponse, h, marshalDependencies, StatusOK,
      NewToolResultText]

/-- C10 witness: a 200 response with body containing only an unrelated key
yields the success text `null`. -/
theorem missing_dependencies_null_witness :
    envNoDeps.newRequestFails = false ∧ envNoDeps.transportFails = false ∧
    envNoDeps.statusCode = 200 ∧
    envNoDeps.body = some (Json.obj [("foo", Json.num 1)]) ∧
    jsonLookupLast [("foo", Json.num 1)] "dependencies" = none ∧
    (listIssueDependencies "owner" "repo" 42 "blocked_by" ⟨0, 0⟩ envNoDeps).result =
      Except.ok ⟨false, "null"⟩ :=
  ⟨rfl, rfl, rfl, rfl, rfl,
    missing_dependencies_null "owner" "repo" 42 "blocked_by" ⟨0, 0⟩ envNoDeps
      [("foo", Json.num 1)] rfl rfl rfl rfl (Or.inl rfl)⟩

/-- C3: for `add_blocked_by` and `remove_blocked_by`, an absent or
empty-string `blocked_by_owner`/`blocked_by_repo` is replaced by the primary
`owner`/`repo` in the request body (an explicitly empty string behaving
exactly like omission, never an error), while a non-empty value is kept; and
the defaulting happens after the required-parameter validation (a missing
`blocked_by_issue_number` is still reported even with empty cross-repo
fields present). -/
theorem blocked_by_defaulting (o r : String) (n bn : Int) (env : HTTPEnv)
    (hgc : env.getClientFails = false) :
    ((AddBlockedByHandler [("owner", Value.str o), ("repo", Value.str r),
        ("issue_number", Value.num n), ("blocked_by_issue_number", Value.num bn)] env).request =
      some ⟨"POST", "repos/" ++ o ++ "/" ++ r ++ "/issues/" ++ toString n ++ "/dependencies/blocked_by",
        some (marshalDependencyRequest ⟨o, r, bn⟩)⟩) ∧
    ((AddBlockedByHandler [("owner", Value.str o), ("repo", Value.str r),
        ("issue_number", Value.num n), ("blocked_by_issue_number", Value.num bn),
        ("blocked_by_owner", Value.str ""), ("blocked_by_repo", Value.str "")] env).request =
      some ⟨"POST", "repos/" ++ o ++ "/" ++ r ++ "/issues/" ++ toString n ++ "/dependencies/blocked_by",
        some (marshalDependencyRequest ⟨o, r, bn⟩)⟩) ∧
    ((AddBlockedByHandler [("owner", Value.str o), ("repo", Value.str r),
        ("issue_number", Value.num n), ("blocked_by_issue_number", Value.num bn),
        ("blocked_by_owner", Value.str ""), ("blocked_by_repo", Value.str "xrepo")] env).request =
      some ⟨"POST", "repos/" ++ o ++ "/" ++ r ++ "/issues/" ++ toString n ++ "/dependencies/blocked_by",
        some (marshalDependencyRequest ⟨o, "xrepo", bn⟩)⟩) ∧
    ((AddBlockedByHandler [("owner", Value.str o), ("repo", Value.str r),
        ("issue_number", Value.num n), ("blocked_by_issue_number", Value.num bn),
        ("blocked_by_owner", Value.str "xowner")] env).request =
      some ⟨"POST", "repos/" ++ o ++ "/" ++ r ++ "/issues/" ++ toString n ++ "/dependencies/blocked_by",
        some (marshalDependencyRequest ⟨"xowner", r, bn⟩)⟩) ∧
    ((RemoveBlockedByHandler [("owner", Value.str o), ("repo", Value.str r),
        ("issue_number", Value.num n), ("blocked_by_issue_number", Value.num bn)] env).request =
      some ⟨"DELETE", "repos/" ++ o ++ "/" ++ r ++ "/issues/" ++ toString n ++ "/dependencies/blocked_by",
        some (marshalDependencyRequest ⟨o, r, bn⟩)⟩) ∧
    ((RemoveBlockedByHandler [("owner", Value.str o), ("repo", Value.str r),
        ("issue_number", Value.num n), ("blocked_by_issue_number", Value.num bn),
        ("blocked_by_owner", Value.str ""), ("blocked_by_repo", Value.str "")] env).request =
      some ⟨"DELETE", "repos/" ++ o ++ "/" ++ r ++ "/issues/" ++ toString n ++ "/dependencies/blocked_by",
        some (marshalDependencyRequest ⟨o, r, bn⟩)⟩) ∧
    ((RemoveBlockedByHandler [("owner", Value.str o), ("repo", Value.str r),
        ("issue_number", Value.num n), ("blocked_by_issue_number", Value.num bn),
        ("blocked_by_owner", Value.str ""), ("blocked_by_repo", Value.str "xrepo")] env).request =
      some ⟨"DELETE", "repos/" ++ o ++ "/" ++ r ++ "/issues/" ++ toString n ++ "/dependencies/blocked_by",
        some (marshalDependencyRequest ⟨o, "xrepo", bn⟩)⟩) ∧
    ((RemoveBlockedByHandler [("owner", Value.str o), ("repo", Value.str r),
        ("issue_number", Value.num n), ("blocked_by_issue_number", Value.num bn),
        ("blocked_by_owner", Value.str "xowner")] env).request =
      some ⟨"DELETE", "repos/" ++ o ++ "/" ++ r ++ "/issues/" ++ toString n ++ "/dependencies/blocked_by",
        some (marshalDependencyRequest ⟨"xowner", r, bn⟩)⟩) ∧
    ((AddBlockedByHandler [("owner", Value.str o), ("repo", Value.str r),
        ("issue_number", Value.num n), ("blocked_by_owner", Value.str ""),
        ("blocked_by_repo", Value.str "")] env).result =
      Except.ok ⟨true, "missing required parameter: blocked_by_issue_number"⟩) ∧
    ((RemoveBlockedByHandler [("owner", Value.str o), ("repo", Value.str r),
        ("issue_number", Value.num n), ("blocked_by_owner", Value.str ""),
        ("blocked_by_repo", Value.str "")] env).result =
      Except.ok ⟨true, "missing required parameter: blocked_by_issue_number"⟩) := by
  refine ⟨?_, ?_, ?_, ?_, ?_, ?_, ?_, ?_, rfl, rfl⟩ <;>
    · simp only [AddBlockedByHandler, RemoveBlockedByHandler, RequiredParamString, RequiredInt,
        OptionalParamString, lookupArg]
      norm_num
      simp [hgc]
      first
      | (unfold addIssueDependency
         repeat' split <;> try rfl)
      | (unfold removeIssueDependency
         repeat' split <;> try rfl)

/-- C3 witness: explicitly empty `blocked_by_owner`/`blocked_by_repo` are
replaced by the primary coordinates in the POST body. -/
theorem blocked_by_defaulting_witness :
    env0.getClientFails = false ∧
    (AddBlockedByHandler [("owner", Value.str "owner"), ("repo", Value.str "repo"),
        ("issue_number", Value.num 42), ("blocked_by_issue_number", Value.num 10),
        ("blocked_by_owner", Value.str ""), ("blocked_by_repo", Value.str "")] env0).request =
      some ⟨"POST", "repos/owner/repo/issues/42/dependencies/blocked_by",
        some "\x7b\"owner\":\"owner\",\"repo\":\"repo\",\"issue_number\":10\x7d"⟩ :=
  ⟨rfl, by
    have h := (blocked_by_defaulting "owner" "repo" 42 10 env0 rfl).2.1
    exact h⟩

end IssueDeps
